import Mathlib

/-!
Verification development for the cesium-map effect modules
(`src/components/cesiumMap/ts/geometry.ts`, `RadarEmission.js`, and the
fence/conical module).  The repository code is shallowly embedded below:
its own arithmetic (vector subtraction, scaling, option defaulting, the
registry guard logic, the material clock formula) is translated directly,
while the Cesium rendering-engine collaborators (geodetic conversion,
heading/pitch/roll frame transforms, normalization, quaternion
construction, primitive construction) are modelled as explicit parameters,
exactly the external-interface boundary the code delegates to.
-/

namespace CesiumMap

/-- `Cesium.Cartesian3`: a world-space Cartesian point/vector.
Components are modelled as exact rationals. -/
structure Vec3 where
  x : ℚ
  y : ℚ
  z : ℚ
deriving DecidableEq, Repr

/-- `Cesium.Cartesian3.add`. -/
def Vec3.add (a b : Vec3) : Vec3 := ⟨a.x + b.x, a.y + b.y, a.z + b.z⟩

/-- `Cesium.Cartesian3.subtract`. -/
def Vec3.sub (a b : Vec3) : Vec3 := ⟨a.x - b.x, a.y - b.y, a.z - b.z⟩

/-- `Cesium.Cartesian3.multiplyByScalar`. -/
def Vec3.smul (c : ℚ) (v : Vec3) : Vec3 := ⟨c * v.x, c * v.y, c * v.z⟩

/-- `Cesium.Cartesian3.UNIT_Z`. -/
def unitZ : Vec3 := ⟨0, 0, 1⟩

/-- `Cesium.HeadingPitchRoll` (angles as the code passes them). -/
structure HeadingPitchRoll where
  heading : ℚ
  pitch : ℚ
  roll : ℚ
deriving DecidableEq, Repr

/-- `Cesium.Quaternion` (an opaque 4-component value produced by the
external `Transforms.headingPitchRollQuaternion`). -/
structure Quat where
  qx : ℚ
  qy : ℚ
  qz : ℚ
  qw : ℚ
deriving DecidableEq, Repr

/-- The external Cesium collaborator functions the cone code calls
(spec §6: geodetic conversion and frame construction are owned by the
rendering engine).  `transformVector origin hpr v` stands for
`Matrix4.multiplyByPointAsVector(Transforms.headingPitchRollToFixedFrame(origin, hpr), v)`,
`normalize` for `Cartesian3.normalize`, `toRadians` for
`Cesium.Math.toRadians`, `hprQuaternion` for
`Transforms.headingPitchRollQuaternion`. -/
structure CesiumExt where
  fromDegrees : ℚ → ℚ → ℚ → Vec3
  toRadians : ℚ → ℚ
  transformVector : Vec3 → HeadingPitchRoll → Vec3 → Vec3
  normalize : Vec3 → Vec3
  hprQuaternion : Vec3 → HeadingPitchRoll → Quat

/-! ## `geometry.ts` — `conicalWave` pose solver -/

/-- The option object of `conicalWave` (geometry.ts lines 32-41).
`positions` is the `[lng, lat, height]` array. -/
structure ConicalWaveOptions where
  id : String
  positions : List ℚ
  heading : ℚ
  pitch : ℚ
  length : ℚ
  bottomRadius : ℚ
  thickness : ℚ
  color : String
deriving DecidableEq, Repr

/-- geometry.ts lines 170-173: `const [lng, lat, height = 0] = options.positions;
const vertexPosition = Cesium.Cartesian3.fromDegrees(lng, lat, height)`.
The `height = 0` destructuring default is `positions.getD 2 0`. -/
def conicalWaveVertexPosition (ext : CesiumExt) (o : ConicalWaveOptions) : Vec3 :=
  ext.fromDegrees (o.positions.getD 0 0) (o.positions.getD 1 0) (o.positions.getD 2 0)

/-- geometry.ts lines 176-181: heading/pitch through `toRadians`, roll 0. -/
def conicalWaveHpr (ext : CesiumExt) (o : ConicalWaveOptions) : HeadingPitchRoll :=
  ⟨ext.toRadians o.heading, ext.toRadians o.pitch, 0⟩

/-- geometry.ts lines 187-203: transform `UNIT_Z` through the
heading/pitch/roll fixed frame at the vertex and normalize. -/
def conicalWaveWorldDirection (ext : CesiumExt) (o : ConicalWaveOptions) : Vec3 :=
  ext.normalize (ext.transformVector (conicalWaveVertexPosition ext o) (conicalWaveHpr ext o) unitZ)

/-- geometry.ts lines 184, 206-208: `cylinderCenter = vertexPosition - worldDirection * (length/2)`. -/
def conicalWaveCenter (ext : CesiumExt) (o : ConicalWaveOptions) : Vec3 :=
  (conicalWaveVertexPosition ext o).sub
    (Vec3.smul (o.length / 2) (conicalWaveWorldDirection ext o))

/-- geometry.ts lines 211-214: `headingPitchRollQuaternion(vertexPosition, hpr)` —
the quaternion is evaluated at the original vertex (anchor). -/
def conicalWaveOrientation (ext : CesiumExt) (o : ConicalWaveOptions) : Quat :=
  ext.hprQuaternion (conicalWaveVertexPosition ext o) (conicalWaveHpr ext o)

/-! ## `RadarEmission.js` — `createRadarCone`, two divergent variants -/

/-- The option object of `RadarEmission` (constructor defaults at lines 70-80). -/
structure RadarOptions where
  position : List ℚ
  heading : ℚ
  pitch : ℚ
  length : ℚ
  bottomRadius : ℚ
  thickness : ℚ
deriving DecidableEq, Repr

/-- Variant 1, lines 134-138: `fromDegrees(lng, lat, 0)` — the height
component of `options.position` is discarded. -/
def radarCone1VertexPosition (ext : CesiumExt) (o : RadarOptions) : Vec3 :=
  ext.fromDegrees (o.position.getD 0 0) (o.position.getD 1 0) 0

/-- Variant 1, lines 141-146: heading and pitch used directly (no sign flip). -/
def radarCone1Hpr (ext : CesiumExt) (o : RadarOptions) : HeadingPitchRoll :=
  ⟨ext.toRadians o.heading, ext.toRadians o.pitch, 0⟩

/-- Variant 1, lines 156-172: local axis `UNIT_Z`, transformed and normalized. -/
def radarCone1WorldDirection (ext : CesiumExt) (o : RadarOptions) : Vec3 :=
  ext.normalize (ext.transformVector (radarCone1VertexPosition ext o) (radarCone1Hpr ext o) unitZ)

/-- Variant 1, lines 153, 176-178: centroid shifted back half the length. -/
def radarCone1Center (ext : CesiumExt) (o : RadarOptions) : Vec3 :=
  (radarCone1VertexPosition ext o).sub
    (Vec3.smul (o.length / 2) (radarCone1WorldDirection ext o))

/-- Variant 1, lines 181-184: quaternion at the original vertex. -/
def radarCone1Orientation (ext : CesiumExt) (o : RadarOptions) : Quat :=
  ext.hprQuaternion (radarCone1VertexPosition ext o) (radarCone1Hpr ext o)

/-- Variant 2, lines 368-372: again `fromDegrees(lng, lat, 0)`. -/
def radarCone2VertexPosition (ext : CesiumExt) (o : RadarOptions) : Vec3 :=
  ext.fromDegrees (o.position.getD 0 0) (o.position.getD 1 0) 0

/-- Variant 2, lines 375-386: the pitch is negated (`pitch = -originalPitch`). -/
def radarCone2Hpr (ext : CesiumExt) (o : RadarOptions) : HeadingPitchRoll :=
  ⟨ext.toRadians o.heading, -(ext.toRadians o.pitch), 0⟩

/-- Variant 2, lines 389-406: local axis `(0, 1, 0)`, transformed and normalized. -/
def radarCone2WorldDirection (ext : CesiumExt) (o : RadarOptions) : Vec3 :=
  ext.normalize
    (ext.transformVector (radarCone2VertexPosition ext o) (radarCone2Hpr ext o) ⟨0, 1, 0⟩)

/-- Variant 2, lines 412-415: centroid shifted back half the length along the axis. -/
def radarCone2Center (ext : CesiumExt) (o : RadarOptions) : Vec3 :=
  (radarCone2VertexPosition ext o).sub
    (Vec3.smul (o.length / 2) (radarCone2WorldDirection ext o))

/-- Variant 2, lines 418-421: the quaternion is evaluated at the shifted
centroid `cylinderCenter`, not at the vertex. -/
def radarCone2Orientation (ext : CesiumExt) (o : RadarOptions) : Quat :=
  ext.hprQuaternion (radarCone2Center ext o) (radarCone2Hpr ext o)

/-! ## Radar material clock (`RadarPrimitiveMaterialProperty.getValue`)

geometry.ts lines 96-109 and RadarEmission.js lines 35-53 compute the
`time` uniform with the same formula
`((new Date().getTime() - this.opts.time) % this.opts.duration) / this.opts.duration / 10`.
Timestamps are modelled as exact rational milliseconds; the current
wall-clock value `now` is an explicit argument since the code reads it
afresh (`new Date().getTime()`) on every evaluation. -/

/-- Truncation toward zero, as JavaScript division underlying `%` rounds. -/
def jsTrunc (q : ℚ) : ℤ := if 0 ≤ q then ⌊q⌋ else ⌈q⌉

/-- The JavaScript remainder operator `a % b`:
`a - b * trunc(a / b)` (sign follows the dividend). -/
def jsMod (a b : ℚ) : ℚ := a - b * (jsTrunc (a / b) : ℚ)

/-- The persistent state of `RadarPrimitiveMaterialProperty` that the
`time` uniform depends on: `opts.time` (creation timestamp, default
`new Date().getTime()`) and `opts.duration` (default 2000 ms). -/
structure RadarMaterialState where
  time : ℚ
  duration : ℚ
deriving DecidableEq, Repr

/-- The `time` uniform written by `getValue`
(geometry.ts line 103 / RadarEmission.js lines 45-48):
`((now - opts.time) % opts.duration) / opts.duration / 10`. -/
def radarGetValueTime (st : RadarMaterialState) (now : ℚ) : ℚ :=
  jsMod (now - st.time) st.duration / st.duration / 10

/-- Modelled from the spec: the normalized phase
`((now - originTime) mod periodMs) / periodMs` of §3 `MaterialClock`,
written out for comparison with the code's uniform. -/
def specNormalizedPhase (originTime periodMs now : ℚ) : ℚ :=
  jsMod (now - originTime) periodMs / periodMs

/-! ## Effect registry (`mapStore`)

The backing store `mapStore` (getGraphicMap/setGraphicMap) is repository
code outside the provided sources; spec §1 assumes "a simple dictionary".
It is modelled as an association list with overwrite-on-set (Map
semantics). -/

/-- Entity record passed to `map.entities.add` by `conicalWave`
(geometry.ts lines 220-230); the returned handle is the entity itself. -/
structure ConeEntity where
  position : Vec3
  orientation : Quat
  length : ℚ
  topRadius : ℚ
  bottomRadius : ℚ
  materialColor : String
  thickness : ℚ
deriving DecidableEq, Repr

/-- Arguments of `new Cesium.WallGeometry` in `fenceFlowEffect`
(part_000 lines 55-59): the flattened `[lng, lat, height]` coordinates
passed to `fromDegreesArrayHeights`, plus the per-vertex height arrays. -/
structure WallGeometryArgs where
  positions : List ℚ
  minimumHeights : List ℚ
  maximumHeights : List ℚ
deriving DecidableEq, Repr

/-- Uniforms of the flame material (part_000 lines 62-68). -/
structure FlameMaterialArgs where
  color : String
  speed : ℚ
  maxHeight : ℚ
deriving DecidableEq, Repr

/-- The wall primitive built by `fenceFlowEffect` (variant 1); the opaque
rendering-engine handle is identified with its construction arguments. -/
structure WallPrimitive where
  geometry : WallGeometryArgs
  material : FlameMaterialArgs
deriving DecidableEq, Repr

/-- Uniforms of the flow material of the second `fenceFlowEffect` variant
(part_000 lines 375-381). -/
structure FlowMaterialArgs where
  color : String
  speed : ℚ
  width : ℚ
deriving DecidableEq, Repr

/-- The wall primitive built by the second `fenceFlowEffect` variant. -/
structure WallPrimitive2 where
  geometry : WallGeometryArgs
  material : FlowMaterialArgs
deriving DecidableEq, Repr

/-- Construction parameters of `conicalEffect` (part_000 lines 202-302);
the geometry/matrix construction is an external Cesium chain abstracted
by its inputs. -/
structure ConicalPrimArgs where
  lng : ℚ
  lat : ℚ
  height : ℚ
  conicalHeight : ℚ
  conicalRadius : ℚ
  heading : ℚ
  pitch : ℚ
  color : String
deriving DecidableEq, Repr

/-- A live rendering-engine handle stored in the registry. -/
inductive Handle where
  | entity (e : ConeEntity)
  | wall (p : WallPrimitive)
  | wall2 (p : WallPrimitive2)
  | conical (c : ConicalPrimArgs)
deriving DecidableEq, Repr

/-- The registry's id-to-handle mapping. -/
def Registry := List (String × Handle)

instance : DecidableEq Registry := by
  unfold Registry
  infer_instance

/-- Modelled from the spec: `mapStore.getGraphicMap(id)` — lookup in the
assumed dictionary (first entry whose key matches). -/
def getGraphicMap : Registry → String → Option Handle
  | [], _ => none
  | (k, v) :: rest, id => if k = id then some v else getGraphicMap rest id

/-- Modelled from the spec: `mapStore.setGraphicMap(id, h)` — dictionary
set, overwriting an existing binding or appending a new one. -/
def setGraphicMap : Registry → String → Handle → Registry
  | [], id, h => [(id, h)]
  | (k, v) :: rest, id, h =>
    if k = id then (id, h) :: rest else (k, v) :: setGraphicMap rest id h

/-- The ids of the live entries. -/
def registryKeys (r : Registry) : List String := r.map Prod.fst

/-- The failure outcomes of a create call.  The code returns `null` in
every failure branch; the constructors mirror the distinct
`console.error`/`console.log` messages that identify each branch. -/
inductive CreateFailure where
  | hostUnavailable
  | alreadyExists
  | invalidSpec
  | constructionFailed
deriving DecidableEq, Repr

/-! ## JavaScript falsy-default helpers (`x || d`) -/

/-- `options.field || d` for an optional numeric field: an absent
(`undefined`) or zero value falls back to the default. -/
def jsOrQ (v : Option ℚ) (d : ℚ) : ℚ :=
  match v with
  | none => d
  | some x => if x = 0 then d else x

/-- `options.field || d` for an optional string field: absent or empty
falls back to the default. -/
def jsOrStr (v : Option String) (d : String) : String :=
  match v with
  | none => d
  | some s => if s = "" then d else s

/-! ## `conicalWave` full create flow (geometry.ts lines 41-236) -/

/-- The entity record `conicalWave` passes to `map.entities.add`
(geometry.ts lines 217-230). -/
def conicalWaveEntity (ext : CesiumExt) (o : ConicalWaveOptions) : ConeEntity :=
  { position := conicalWaveCenter ext o
    orientation := conicalWaveOrientation ext o
    length := o.length
    topRadius := 0
    bottomRadius := o.bottomRadius
    materialColor := jsOrStr (some o.color) "#00FFFF"
    thickness := o.thickness }

/-- `conicalWave` create flow: host check (lines 42-46), duplicate-id
check (lines 48-52), then unconditional construction and registration
(lines 220-235).  `host` is whether `mapStore.getMap()` returned a map. -/
def conicalWave (ext : CesiumExt) (host : Bool) (r : Registry) (o : ConicalWaveOptions) :
    Except CreateFailure ConeEntity × Registry :=
  if host then
    if (getGraphicMap r o.id).isSome then (.error .alreadyExists, r)
    else
      (.ok (conicalWaveEntity ext o),
       setGraphicMap r o.id (.entity (conicalWaveEntity ext o)))
  else (.error .hostUnavailable, r)

/-! ## `fenceFlowEffect`, variant 1 (part_000 lines 20-168) -/

/-- The option object of `fenceFlowEffect` (part_000 lines 20-27).
Each entry of `positions` is a `[lng, lat, height]` array whose third
entry may be absent. -/
structure FenceOptions where
  id : String
  positions : List (List ℚ)
  color : Option String
  speed : Option ℚ
  width : Option ℚ
  maxHeight : Option ℚ
deriving DecidableEq, Repr

/-- part_000 line 46: `const maxHeight = options.maxHeight || 100`. -/
def fenceMaxHeight (o : FenceOptions) : ℚ := jsOrQ o.maxHeight 100

/-- part_000 line 47: `const speed = options.speed || 1.0`. -/
def fenceSpeed (o : FenceOptions) : ℚ := jsOrQ o.speed 1

/-- part_000 line 51: one mapped vertex `[pos[0], pos[1], pos[2] || 0]`. -/
def fenceVertexCoord (pos : List ℚ) : List ℚ :=
  [pos.getD 0 0, pos.getD 1 0, jsOrQ (pos.get? 2) 0]

/-- part_000 lines 51-52: `coordinates` then `flattenedCoords`. -/
def fenceCoordinates (o : FenceOptions) : List (List ℚ) :=
  o.positions.map fenceVertexCoord

/-- part_000 lines 55-59: the `WallGeometry` arguments: flattened
coordinates, `minimumHeights` all 0, `maximumHeights` all `maxHeight`. -/
def fenceGeometryArgs (o : FenceOptions) : WallGeometryArgs :=
  { positions := (fenceCoordinates o).flatten
    minimumHeights := List.replicate (fenceCoordinates o).length 0
    maximumHeights := List.replicate (fenceCoordinates o).length (fenceMaxHeight o) }

/-- part_000 lines 62-68: the flame material uniforms
(`u_color = options.color || '#FF6600'`, `u_speed`, `u_maxHeight`). -/
def fenceMaterialArgs (o : FenceOptions) : FlameMaterialArgs :=
  { color := jsOrStr o.color "#FF6600"
    speed := fenceSpeed o
    maxHeight := fenceMaxHeight o }

/-- The wall primitive assembled inside the `try` block. -/
def fenceWallPrimitive (o : FenceOptions) : WallPrimitive :=
  { geometry := fenceGeometryArgs o, material := fenceMaterialArgs o }

/-- The fallible rendering-engine collaborators of `fenceFlowEffect`:
whether `new WallGeometry`, `new Material`, `new Primitive` and
`scene.primitives.add` succeed (an exception at any stage lands in the
`catch` of part_000 lines 164-167). -/
structure FenceExt where
  wallGeometryOk : WallGeometryArgs → Bool
  flameMaterialOk : FlameMaterialArgs → Bool
  primitiveOk : WallPrimitive → Bool
  addOk : WallPrimitive → Bool

/-- The `try` block's construction chain (part_000 lines 49-158), up to
but excluding the registry write: `none` means some stage threw. -/
def fenceConstruct (fext : FenceExt) (o : FenceOptions) : Option WallPrimitive :=
  if fext.wallGeometryOk (fenceGeometryArgs o) then
    if fext.flameMaterialOk (fenceMaterialArgs o) then
      if fext.primitiveOk (fenceWallPrimitive o) then
        if fext.addOk (fenceWallPrimitive o) then some (fenceWallPrimitive o)
        else none
      else none
    else none
  else none

/-- `fenceFlowEffect` create flow (part_000 lines 27-168): host check,
duplicate-id check (lines 34-38), minimum-vertex check (lines 40-44),
then the guarded construction; `setGraphicMap` runs only after every
construction stage succeeded (line 160). -/
def fenceFlowEffect (fext : FenceExt) (host : Bool) (r : Registry) (o : FenceOptions) :
    Except CreateFailure WallPrimitive × Registry :=
  if host then
    if (getGraphicMap r o.id).isSome then (.error .alreadyExists, r)
    else if o.positions.length < 2 then (.error .invalidSpec, r)
    else
      match fenceConstruct fext o with
      | none => (.error .constructionFailed, r)
      | some p => (.ok p, setGraphicMap r o.id (.wall p))
  else (.error .hostUnavailable, r)

/-! ## `fenceFlowEffect`, variant 2 (part_000 lines 330-445)

Same flow, but the wall height is hard-coded to 100, the material is the
directional flow band, and the `catch` additionally removes an
already-added primitive from the scene (lines 436-443) — a scene-side
cleanup that never touches the registry. -/

/-- The option object of the second variant (no `maxHeight` field). -/
structure FenceOptions2 where
  id : String
  positions : List (List ℚ)
  color : Option String
  speed : Option ℚ
  width : Option ℚ
deriving DecidableEq, Repr

/-- part_000 lines 364-372: coordinates and `WallGeometry` arguments,
heights fixed at 0 and 100. -/
def fence2GeometryArgs (o : FenceOptions2) : WallGeometryArgs :=
  { positions := (o.positions.map fenceVertexCoord).flatten
    minimumHeights := List.replicate (o.positions.map fenceVertexCoord).length 0
    maximumHeights := List.replicate (o.positions.map fenceVertexCoord).length 100 }

/-- part_000 lines 375-381: flow material uniforms. -/
def fence2MaterialArgs (o : FenceOptions2) : FlowMaterialArgs :=
  { color := jsOrStr o.color "#00FFFF"
    speed := jsOrQ o.speed 1
    width := jsOrQ o.width (1 / 10) }

/-- The wall primitive of the second variant. -/
def fence2WallPrimitive (o : FenceOptions2) : WallPrimitive2 :=
  { geometry := fence2GeometryArgs o, material := fence2MaterialArgs o }

/-- Fallible collaborators of the second variant. -/
structure FenceExt2 where
  wallGeometryOk : WallGeometryArgs → Bool
  flowMaterialOk : FlowMaterialArgs → Bool
  primitiveOk : WallPrimitive2 → Bool
  addOk : WallPrimitive2 → Bool

/-- The second variant's `try` construction chain (part_000 lines 362-431). -/
def fence2Construct (fext : FenceExt2) (o : FenceOptions2) : Option WallPrimitive2 :=
  if fext.wallGeometryOk (fence2GeometryArgs o) then
    if fext.flowMaterialOk (fence2MaterialArgs o) then
      if fext.primitiveOk (fence2WallPrimitive o) then
        if fext.addOk (fence2WallPrimitive o) then some (fence2WallPrimitive o)
        else none
      else none
    else none
  else none

/-- The second `fenceFlowEffect` create flow (part_000 lines 341-445). -/
def fenceFlowEffect2 (fext : FenceExt2) (host : Bool) (r : Registry) (o : FenceOptions2) :
    Except CreateFailure WallPrimitive2 × Registry :=
  if host then
    if (getGraphicMap r o.id).isSome then (.error .alreadyExists, r)
    else if o.positions.length < 2 then (.error .invalidSpec, r)
    else
      match fence2Construct fext o with
      | none => (.error .constructionFailed, r)
      | some p => (.ok p, setGraphicMap r o.id (.wall2 p))
  else (.error .hostUnavailable, r)

/-! ## `conicalEffect` (part_000 lines 175-310) -/

/-- The option object of `conicalEffect` (part_000 lines 175-183). -/
structure ConicalEffectOptions where
  id : String
  positions : List ℚ
  color : Option String
  height : Option ℚ
  radius : Option ℚ
  heading : Option ℚ
  pitch : Option ℚ
deriving DecidableEq, Repr

/-- The construction parameters assembled in the `try` block
(part_000 lines 204-224), with the `||` defaults of the source. -/
def conicalEffectArgs (o : ConicalEffectOptions) : ConicalPrimArgs :=
  { lng := o.positions.getD 0 0
    lat := o.positions.getD 1 0
    height := o.positions.getD 2 0
    conicalHeight := jsOrQ o.height 200
    conicalRadius := jsOrQ o.radius 50
    heading := jsOrQ o.heading 0
    pitch := jsOrQ o.pitch 0
    color := jsOrStr o.color "#00FFFF" }

/-- The fallible external construction chain of `conicalEffect`
(geometry, matrices, material, primitive, `primitives.add`), abstracted
over its inputs; `false` means some stage threw into the `catch`. -/
structure ConicalExt where
  constructOk : ConicalPrimArgs → Bool

/-- `conicalEffect` create flow (part_000 lines 183-310): host check,
duplicate-id check (lines 190-194), position-arity check (lines 196-200),
then the guarded construction and registration (line 302). -/
def conicalEffect (cext : ConicalExt) (host : Bool) (r : Registry) (o : ConicalEffectOptions) :
    Except CreateFailure ConicalPrimArgs × Registry :=
  if host then
    if (getGraphicMap r o.id).isSome then (.error .alreadyExists, r)
    else if o.positions.length < 3 then (.error .invalidSpec, r)
    else if cext.constructOk (conicalEffectArgs o) then
      (.ok (conicalEffectArgs o), setGraphicMap r o.id (.conical (conicalEffectArgs o)))
    else (.error .constructionFailed, r)
  else (.error .hostUnavailable, r)

/-! ## Concrete collaborator models (used to evaluate the embeddings)

These instantiate the external-interface parameters at concrete values so
that theorems with hypotheses can be exercised on closed inputs.  They are
models of the collaborators, not translations of repository code. -/

/-- A trivial collaborator model: the geodetic conversion is the raw
coordinate triple, frames act as the identity, and the quaternion records
its evaluation point and pitch.  Adequate wherever a theorem holds for
every collaborator. -/
def idCesiumExt : CesiumExt :=
  { fromDegrees := fun a b c => ⟨a, b, c⟩
    toRadians := fun q => q
    transformVector := fun _ _ v => v
    normalize := fun v => v
    hprQuaternion := fun p h => ⟨p.x, p.y, p.z, h.pitch⟩ }

/-- Exact sine at angles measured in degrees, defined at the multiples of
90° the demonstration inputs use (0 elsewhere). -/
def sind (q : ℚ) : ℚ :=
  if q = 90 then 1 else if q = -90 then -1 else 0

/-- Exact cosine at angles measured in degrees, defined at the multiples
of 90° the demonstration inputs use (0 elsewhere). -/
def cosd (q : ℚ) : ℚ :=
  if q = 0 then 1 else if q = 180 then -1 else if q = -180 then -1 else 0

/-- Rotation about the x axis by an angle with cosine `c` and sine `s`. -/
def rotX (c s : ℚ) (v : Vec3) : Vec3 := ⟨v.x, c * v.y - s * v.z, s * v.y + c * v.z⟩

/-- Rotation about the y axis by an angle with cosine `c` and sine `s`. -/
def rotY (c s : ℚ) (v : Vec3) : Vec3 := ⟨c * v.x + s * v.z, v.y, -s * v.x + c * v.z⟩

/-- Rotation about the z axis by an angle with cosine `c` and sine `s`. -/
def rotZ (c s : ℚ) (v : Vec3) : Vec3 := ⟨c * v.x - s * v.y, s * v.x + c * v.y, v.z⟩

/-- Cesium's heading/pitch/roll rotation
(heading about −z, then pitch about −y, then roll about +x), with the
angles read in degrees through `cosd`/`sind`. -/
def hprRotateDeg (hpr : HeadingPitchRoll) (v : Vec3) : Vec3 :=
  rotZ (cosd (-hpr.heading)) (sind (-hpr.heading))
    (rotY (cosd (-hpr.pitch)) (sind (-hpr.pitch))
      (rotX (cosd hpr.roll) (sind hpr.roll) v))

/-- A rotation collaborator model: angles are kept in degrees
(`toRadians` is the identity on the number, the trigonometry reads
degrees), the local east-north-up frame at the evaluation point is taken
as the world frame, and `normalize` is the identity — the demonstration
inputs only normalize vectors that are already unit (rotations of unit
vectors).  At the inputs the counterexamples evaluate, this agrees with
Cesium's `headingPitchRollToFixedFrame` up to the fixed invertible
east-north-up basis change, which preserves every (in)equality used. -/
def rotCesiumExt : CesiumExt :=
  { fromDegrees := fun a b c => ⟨a, b, c⟩
    toRadians := fun q => q
    transformVector := fun _ hpr v => hprRotateDeg hpr v
    normalize := fun v => v
    hprQuaternion := fun p h => ⟨p.x, p.y, p.z, h.pitch⟩ }

/-- A fence collaborator on which every construction stage succeeds. -/
def allOkFenceExt : FenceExt :=
  { wallGeometryOk := fun _ => true
    flameMaterialOk := fun _ => true
    primitiveOk := fun _ => true
    addOk := fun _ => true }

/-- A fence collaborator whose `WallGeometry` constructor throws. -/
def geomFailFenceExt : FenceExt :=
  { wallGeometryOk := fun _ => false
    flameMaterialOk := fun _ => true
    primitiveOk := fun _ => true
    addOk := fun _ => true }

/-- A variant-2 fence collaborator whose `Primitive` constructor throws. -/
def primFailFenceExt2 : FenceExt2 :=
  { wallGeometryOk := fun _ => true
    flowMaterialOk := fun _ => true
    primitiveOk := fun _ => false
    addOk := fun _ => true }

/-- A conical-effect collaborator on which construction succeeds. -/
def allOkConicalExt : ConicalExt := { constructOk := fun _ => true }

/-! ## Registry and clock helper lemmas -/

theorem getGraphicMap_mem {r : Registry} {id : String} {h : Handle}
    (he : getGraphicMap r id = some h) : id ∈ registryKeys r := by
  induction r with
  | nil => simp [getGraphicMap] at he
  | cons kv rest ih =>
    obtain ⟨k, v⟩ := kv
    by_cases hk : k = id
    · subst hk; exact List.mem_cons_self _ _
    · simp only [getGraphicMap, if_neg hk] at he
      exact List.mem_cons_of_mem _ (ih he)

theorem getGraphicMap_set_self (r : Registry) (id : String) (h : Handle) :
    getGraphicMap (setGraphicMap r id h) id = some h := by
  induction r with
  | nil => simp [setGraphicMap, getGraphicMap]
  | cons kv rest ih =>
    obtain ⟨k, v⟩ := kv
    by_cases hk : k = id
    · simp [setGraphicMap, getGraphicMap, hk]
    · simp [setGraphicMap, getGraphicMap, hk, ih]

theorem Vec3.sub_add_cancelVec (v d : Vec3) (c : ℚ) :
    (v.sub (Vec3.smul c d)).add (Vec3.smul c d) = v := by
  cases v
  cases d
  simp only [Vec3.sub, Vec3.add, Vec3.smul, Vec3.mk.injEq]
  refine ⟨by ring, by ring, by ring⟩

theorem Vec3.sub_smul_zero (v d : Vec3) : v.sub (Vec3.smul 0 d) = v := by
  cases v
  cases d
  simp [Vec3.sub, Vec3.smul]

theorem jsMod_of_lt {a b : ℚ} (ha : 0 ≤ a) (hab : a < b) : jsMod a b = a := by
  have hb : 0 < b := lt_of_le_of_lt ha hab
  unfold jsMod jsTrunc
  rw [if_pos (div_nonneg ha hb.le),
    show ⌊a / b⌋ = 0 from
      Int.floor_eq_zero_iff.mpr ⟨div_nonneg ha hb.le, (div_lt_one hb).mpr hab⟩]
  simp

theorem jsMod_eq_fract {a b : ℚ} (ha : 0 ≤ a) (hb : 0 < b) :
    jsMod a b = b * Int.fract (a / b) := by
  have hb' : b ≠ 0 := ne_of_gt hb
  unfold jsMod jsTrunc
  rw [if_pos (div_nonneg ha hb.le), Int.fract, mul_sub, mul_div_cancel₀ a hb']

theorem jsMod_nonneg {a b : ℚ} (ha : 0 ≤ a) (hb : 0 < b) : 0 ≤ jsMod a b := by
  rw [jsMod_eq_fract ha hb]
  exact mul_nonneg hb.le (Int.fract_nonneg _)

theorem jsMod_lt {a b : ℚ} (ha : 0 ≤ a) (hb : 0 < b) : jsMod a b < b := by
  rw [jsMod_eq_fract ha hb]
  calc b * Int.fract (a / b) < b * 1 :=
        (mul_lt_mul_left hb).mpr (Int.fract_lt_one _)
    _ = b := mul_one b

theorem fenceFlowEffect_error_unchanged (fext : FenceExt) (host : Bool)
    (r : Registry) (o : FenceOptions) (e : CreateFailure)
    (h : (fenceFlowEffect fext host r o).1 = .error e) :
    (fenceFlowEffect fext host r o).2 = r := by
  by_cases hh : host = true
  · cases hg : getGraphicMap r o.id with
    | some h0 => simp [fenceFlowEffect, hh, hg]
    | none =>
      by_cases hl : o.positions.length < 2
      · simp [fenceFlowEffect, hh, hg, hl]
      · cases hc : fenceConstruct fext o with
        | none => simp [fenceFlowEffect, hh, hg, hl, hc]
        | some p => simp [fenceFlowEffect, hh, hg, hl, hc] at h
  · simp [fenceFlowEffect, hh]

theorem fenceFlowEffect2_error_unchanged (fext : FenceExt2) (host : Bool)
    (r : Registry) (o : FenceOptions2) (e : CreateFailure)
    (h : (fenceFlowEffect2 fext host r o).1 = .error e) :
    (fenceFlowEffect2 fext host r o).2 = r := by
  by_cases hh : host = true
  · cases hg : getGraphicMap r o.id with
    | some h0 => simp [fenceFlowEffect2, hh, hg]
    | none =>
      by_cases hl : o.positions.length < 2
      · simp [fenceFlowEffect2, hh, hg, hl]
      · cases hc : fence2Construct fext o with
        | none => simp [fenceFlowEffect2, hh, hg, hl, hc]
        | some p => simp [fenceFlowEffect2, hh, hg, hl, hc] at h
  · simp [fenceFlowEffect2, hh]

/-! ## Demonstration inputs -/

/-- The spec §8 example scenario: anchor (114°, 35°, 0 m), heading 135°,
pitch 0°, axial length 500000 m, base radius 50000 m. -/
def cwDemoOptions : ConicalWaveOptions :=
  { id := "cone-demo", positions := [114, 35, 0], heading := 135, pitch := 0,
    length := 500000, bottomRadius := 50000, thickness := 1 / 10, color := "#00FFFF" }

/-- The `RadarEmission` constructor defaults (lines 70-80). -/
def radarDemoOptions : RadarOptions :=
  { position := [114, 35, 0], heading := 135, pitch := 0,
    length := 500000, bottomRadius := 50000, thickness := 1 / 10 }

/-- The radar defaults with a nonzero pitch of 90°. -/
def radarPitchOptions : RadarOptions :=
  { position := [114, 35, 0], heading := 0, pitch := 90,
    length := 500000, bottomRadius := 50000, thickness := 1 / 10 }

/-- A radar input whose anchor has nonzero height (5 m). -/
def radarHeightOptions : RadarOptions :=
  { position := [114, 35, 5], heading := 135, pitch := 0,
    length := 500000, bottomRadius := 50000, thickness := 1 / 10 }

/-- A material clock created at timestamp 0 with the default 2000 ms
duration. -/
def radarDemoState : RadarMaterialState := { time := 0, duration := 2000 }

/-- A `conicalWave` input with zero axial length. -/
def cwZeroLenOptions : ConicalWaveOptions :=
  { id := "cone-zero", positions := [114, 35, 0], heading := 135, pitch := 0,
    length := 0, bottomRadius := 50000, thickness := 1 / 10, color := "#00FFFF" }

/-- The spec example options under the id "dup". -/
def cwDupOptions : ConicalWaveOptions :=
  { id := "dup", positions := [114, 35, 0], heading := 135, pitch := 0,
    length := 500000, bottomRadius := 50000, thickness := 1 / 10, color := "#00FFFF" }

/-- A two-vertex fence input (the minimum accepted). -/
def fenceDemoOptions : FenceOptions :=
  { id := "fence-a", positions := [[114, 35, 0], [115, 36, 0]], color := none,
    speed := none, width := none, maxHeight := none }

/-- A one-vertex fence input (below the minimum). -/
def fence1VertexOptions : FenceOptions :=
  { id := "fence-one", positions := [[114, 35, 0]], color := none,
    speed := none, width := none, maxHeight := none }

/-- A two-vertex fence input under the id "dup". -/
def fenceDupOptions : FenceOptions :=
  { id := "dup", positions := [[114, 35, 0], [115, 36, 0]], color := none,
    speed := none, width := none, maxHeight := none }

/-- A fence input exercising the falsy defaults: explicit `maxHeight = 0`
and `speed = 0`, one vertex without a third coordinate. -/
def fenceFalsyOptions : FenceOptions :=
  { id := "fence-falsy", positions := [[114, 35], [115, 36, 0]], color := none,
    speed := some 0, width := none, maxHeight := some 0 }

/-- A two-vertex input for the second fence variant. -/
def fence2DemoOptions : FenceOptions2 :=
  { id := "fence-b", positions := [[114, 35, 0], [115, 36, 0]], color := none,
    speed := none, width := none }

/-- A `conicalEffect` input under the id "dup". -/
def conicalDupOptions : ConicalEffectOptions :=
  { id := "dup", positions := [114, 35, 0], color := none, height := none,
    radius := none, heading := none, pitch := none }

/-- A registry already holding a live entry under the id "dup". -/
def demoHandle : Handle := .entity (conicalWaveEntity idCesiumExt cwDupOptions)

/-- A one-entry registry whose live id is "dup". -/
def demoDupRegistry : Registry := [("dup", demoHandle)]

/-! ## Claims -/

/-- Claim C1: for every cone creation input with positive axial length,
the solved pose satisfies `center + D * (axialLength / 2) = P_anchor`,
where `center` is the solver's output centroid, `D` the normalized
world-space direction obtained by transforming the local symmetry axis
through the heading/pitch/roll frame at the anchor, and `P_anchor` the
Cartesian position of the anchor (the solver's vertex).  Proven as exact
rational equality for every collaborator, hence within any floating-point
tolerance; stated for `conicalWave` (geometry.ts) and `createRadarCone`
variant 1 (RadarEmission.js). -/
theorem conicalWave_apex_reconstruction (ext : CesiumExt)
    (o : ConicalWaveOptions) (ro : RadarOptions)
    (hlen : 0 < o.length) (hrlen : 0 < ro.length) :
    (conicalWaveCenter ext o).add
        (Vec3.smul (o.length / 2) (conicalWaveWorldDirection ext o)) =
      conicalWaveVertexPosition ext o ∧
    (radarCone1Center ext ro).add
        (Vec3.smul (ro.length / 2) (radarCone1WorldDirection ext ro)) =
      radarCone1VertexPosition ext ro := by
  refine ⟨?_, ?_⟩
  · unfold conicalWaveCenter
    exact Vec3.sub_add_cancelVec _ _ _
  · unfold radarCone1Center
    exact Vec3.sub_add_cancelVec _ _ _

/-- Witness for C1 at the spec §8 example scenario (length 500000 > 0). -/
theorem conicalWave_apex_reconstruction_witness :
    (0 : ℚ) < cwDemoOptions.length ∧
    (conicalWaveCenter idCesiumExt cwDemoOptions).add
        (Vec3.smul (cwDemoOptions.length / 2)
          (conicalWaveWorldDirection idCesiumExt cwDemoOptions)) =
      conicalWaveVertexPosition idCesiumExt cwDemoOptions ∧
    (radarCone1Center idCesiumExt radarDemoOptions).add
        (Vec3.smul (radarDemoOptions.length / 2)
          (radarCone1WorldDirection idCesiumExt radarDemoOptions)) =
      radarCone1VertexPosition idCesiumExt radarDemoOptions := by
  have h := conicalWave_apex_reconstruction idCesiumExt cwDemoOptions radarDemoOptions
    (by norm_num [cwDemoOptions]) (by norm_num [radarDemoOptions])
  exact ⟨by norm_num [cwDemoOptions], h.1, h.2⟩

/-- Claim C2 counterexample: at origin time 0, duration 2000 ms and
wall-clock 1000 ms, the `time` uniform written by `getValue` is 1/20, not
the normalized phase 1/2 — the code divides the phase by a further 10. -/
theorem radarGetValueTime_not_normalizedPhase :
    radarGetValueTime radarDemoState 1000 ≠
      specNormalizedPhase radarDemoState.time radarDemoState.duration 1000 := by
  have hm : jsMod ((1000 : ℚ) - radarDemoState.time) radarDemoState.duration = 1000 := by
    show jsMod ((1000 : ℚ) - 0) 2000 = 1000
    rw [show ((1000 : ℚ) - 0) = 1000 by norm_num]
    exact jsMod_of_lt (by norm_num) (by norm_num)
  unfold radarGetValueTime specNormalizedPhase
  rw [hm]
  show ¬(1000 / 2000 / 10 : ℚ) = 1000 / 2000
  norm_num

/-- Claim C2 (amended): on every evaluation the `time` uniform returned by
`getValue` equals the normalized phase
`((now − originTime) mod periodMs) / periodMs` divided by 10; it lies in
[0, 1/10) — hence in [0, 1) — and is recomputed from the wall-clock
argument `now` read afresh on each call. -/
theorem radarGetValueTime_phase_div_ten (st : RadarMaterialState) (now : ℚ)
    (h1 : st.time ≤ now) (h2 : 0 < st.duration) :
    radarGetValueTime st now = specNormalizedPhase st.time st.duration now / 10 ∧
    0 ≤ radarGetValueTime st now ∧
    radarGetValueTime st now < 1 / 10 := by
  have ha : 0 ≤ now - st.time := sub_nonneg.mpr h1
  have hmod0 : 0 ≤ jsMod (now - st.time) st.duration := jsMod_nonneg ha h2
  have hmod1 : jsMod (now - st.time) st.duration < st.duration := jsMod_lt ha h2
  refine ⟨rfl, ?_, ?_⟩
  · unfold radarGetValueTime
    have : 0 ≤ jsMod (now - st.time) st.duration / st.duration :=
      div_nonneg hmod0 h2.le
    linarith
  · unfold radarGetValueTime
    have : jsMod (now - st.time) st.duration / st.duration < 1 :=
      (div_lt_one h2).mpr hmod1
    linarith

/-- Witness for C2 (amended) at origin 0, duration 2000, wall-clock 1000. -/
theorem radarGetValueTime_phase_div_ten_witness :
    radarDemoState.time ≤ (1000 : ℚ) ∧
    (0 : ℚ) < radarDemoState.duration ∧
    radarGetValueTime radarDemoState 1000 =
        specNormalizedPhase radarDemoState.time radarDemoState.duration 1000 / 10 ∧
    0 ≤ radarGetValueTime radarDemoState 1000 ∧
    radarGetValueTime radarDemoState 1000 < 1 / 10 := by
  have h := radarGetValueTime_phase_div_ten radarDemoState 1000
    (by norm_num [radarDemoState]) (by norm_num [radarDemoState])
  exact ⟨by norm_num [radarDemoState], by norm_num [radarDemoState], h.1, h.2.1, h.2.2⟩

/-- Claim C3 counterexample: for `createRadarCone` variant 2 at pitch 90°
(rotation collaborator model), the orientation quaternion is not the
heading/pitch/roll quaternion rooted at the original anchor — the variant
evaluates it at the shifted centroid, which differs from the anchor. -/
theorem radarCone2_orientation_not_at_anchor :
    radarCone2Orientation rotCesiumExt radarPitchOptions ≠
      rotCesiumExt.hprQuaternion (radarCone2VertexPosition rotCesiumExt radarPitchOptions)
        (radarCone2Hpr rotCesiumExt radarPitchOptions) := by
  have hv : radarCone2VertexPosition rotCesiumExt radarPitchOptions = ⟨114, 35, 0⟩ := rfl
  have hc : radarCone2Center rotCesiumExt radarPitchOptions = ⟨114, -249965, 0⟩ := by
    norm_num [radarCone2Center, radarCone2VertexPosition, radarCone2WorldDirection,
      radarCone2Hpr, rotCesiumExt, radarPitchOptions, hprRotateDeg, rotX, rotY, rotZ,
      sind, cosd, unitZ, Vec3.sub, Vec3.smul, Vec3.mk.injEq]
  unfold radarCone2Orientation
  rw [hc, hv]
  norm_num [rotCesiumExt, Quat.mk.injEq]

/-- Claim C3 (amended): `conicalWave` and `createRadarCone` variant 1 root
the orientation quaternion's tangent frame at the original anchor
(vertex), while variant 2 evaluates it at the shifted centroid (with the
negated pitch). -/
theorem coneOrientation_tangent_frames (ext : CesiumExt)
    (o : ConicalWaveOptions) (ro : RadarOptions) :
    conicalWaveOrientation ext o =
        ext.hprQuaternion (conicalWaveVertexPosition ext o) (conicalWaveHpr ext o) ∧
    radarCone1Orientation ext ro =
        ext.hprQuaternion (radarCone1VertexPosition ext ro) (radarCone1Hpr ext ro) ∧
    radarCone2Orientation ext ro =
        ext.hprQuaternion (radarCone2Center ext ro) (radarCone2Hpr ext ro) :=
  ⟨rfl, rfl, rfl⟩

/-- Claim C4: the two `createRadarCone` variants are not equivalent for
nonzero pitch: at pitch 90° (rotation collaborator model) they produce
different (center, orientation) poses — variant 1 tilts the axis with the
caller's pitch, variant 2 negates the pitch and uses the (0, 1, 0) local
axis, so even the centroids land in different places. -/
theorem radarCone_variants_diverge :
    radarPitchOptions.pitch ≠ 0 ∧
    (radarCone1Center rotCesiumExt radarPitchOptions,
        radarCone1Orientation rotCesiumExt radarPitchOptions) ≠
      (radarCone2Center rotCesiumExt radarPitchOptions,
        radarCone2Orientation rotCesiumExt radarPitchOptions) := by
  have hc1 : radarCone1Center rotCesiumExt radarPitchOptions = ⟨250114, 35, 0⟩ := by
    norm_num [radarCone1Center, radarCone1VertexPosition, radarCone1WorldDirection,
      radarCone1Hpr, rotCesiumExt, radarPitchOptions, hprRotateDeg, rotX, rotY, rotZ,
      sind, cosd, unitZ, Vec3.sub, Vec3.smul, Vec3.mk.injEq]
  have hc2 : radarCone2Center rotCesiumExt radarPitchOptions = ⟨114, -249965, 0⟩ := by
    norm_num [radarCone2Center, radarCone2VertexPosition, radarCone2WorldDirection,
      radarCone2Hpr, rotCesiumExt, radarPitchOptions, hprRotateDeg, rotX, rotY, rotZ,
      sind, cosd, unitZ, Vec3.sub, Vec3.smul, Vec3.mk.injEq]
  refine ⟨by norm_num [radarPitchOptions], ?_⟩
  intro hpair
  have := congrArg Prod.fst hpair
  rw [hc1, hc2] at this
  exact absurd (congrArg Vec3.x this) (by norm_num)

/-- Claim C5: for every registry state with pairwise-distinct live ids and
every id that already has a live entry, each of the three create calls
(`conicalWave`, `fenceFlowEffect`, `conicalEffect`) with that id returns a
failure value and leaves the registry unchanged: the existing entry is
never replaced, no entry is added, ids stay pairwise distinct (the
registry is returned as-is), and exactly one live entry exists for that id
afterwards (count 1 among the keys of the unchanged registry). -/
theorem createDuplicateId_noop (ext : CesiumExt) (fext : FenceExt) (cext : ConicalExt)
    (r : Registry) (o₁ : ConicalWaveOptions) (o₂ : FenceOptions) (o₃ : ConicalEffectOptions)
    (h₁ h₂ h₃ : Handle)
    (hnd : (registryKeys r).Nodup)
    (e₁ : getGraphicMap r o₁.id = some h₁)
    (e₂ : getGraphicMap r o₂.id = some h₂)
    (e₃ : getGraphicMap r o₃.id = some h₃) :
    conicalWave ext true r o₁ = (.error .alreadyExists, r) ∧
    fenceFlowEffect fext true r o₂ = (.error .alreadyExists, r) ∧
    conicalEffect cext true r o₃ = (.error .alreadyExists, r) ∧
    (registryKeys r).count o₁.id = 1 ∧
    (registryKeys r).count o₂.id = 1 ∧
    (registryKeys r).count o₃.id = 1 := by
  refine ⟨?_, ?_, ?_, ?_, ?_, ?_⟩
  · simp [conicalWave, e₁]
  · simp [fenceFlowEffect, e₂]
  · simp [conicalEffect, e₃]
  · exact List.count_eq_one_of_mem hnd (getGraphicMap_mem e₁)
  · exact List.count_eq_one_of_mem hnd (getGraphicMap_mem e₂)
  · exact List.count_eq_one_of_mem hnd (getGraphicMap_mem e₃)

/-- Witness for C5 on a one-entry registry holding the id "dup". -/
theorem createDuplicateId_noop_witness :
    getGraphicMap demoDupRegistry "dup" = some demoHandle ∧
    conicalWave idCesiumExt true demoDupRegistry cwDupOptions =
      (.error .alreadyExists, demoDupRegistry) ∧
    fenceFlowEffect allOkFenceExt true demoDupRegistry fenceDupOptions =
      (.error .alreadyExists, demoDupRegistry) ∧
    conicalEffect allOkConicalExt true demoDupRegistry conicalDupOptions =
      (.error .alreadyExists, demoDupRegistry) := by
  have h := createDuplicateId_noop idCesiumExt allOkFenceExt allOkConicalExt
    demoDupRegistry cwDupOptions fenceDupOptions conicalDupOptions
    demoHandle demoHandle demoHandle
    (by simp [demoDupRegistry, registryKeys])
    (by simp [demoDupRegistry, getGraphicMap, cwDupOptions])
    (by simp [demoDupRegistry, getGraphicMap, fenceDupOptions])
    (by simp [demoDupRegistry, getGraphicMap, conicalDupOptions])
  exact ⟨by simp [demoDupRegistry, getGraphicMap], h.1, h.2.1, h.2.2.1⟩

/-- Claim C6: creation is atomic with respect to the registry.  If the
fence construction chain fails at any stage (geometry, material,
primitive, or scene add — i.e. `fenceConstruct` is `none`), the create
call returns a failure value with the registry unchanged; and in general
every failing `fenceFlowEffect`/`fenceFlowEffect2` call (both variants)
leaves the id-to-handle mapping exactly as it was — no partial entry. -/
theorem fenceCreate_atomic (fext : FenceExt) (fext2 : FenceExt2) (r : Registry)
    (o : FenceOptions) (o2 : FenceOptions2)
    (hfresh : getGraphicMap r o.id = none) (hfresh2 : getGraphicMap r o2.id = none)
    (hn : 2 ≤ o.positions.length) (hn2 : 2 ≤ o2.positions.length)
    (hfail : fenceConstruct fext o = none) (hfail2 : fence2Construct fext2 o2 = none) :
    fenceFlowEffect fext true r o = (.error .constructionFailed, r) ∧
    fenceFlowEffect2 fext2 true r o2 = (.error .constructionFailed, r) ∧
    (∀ (host : Bool) (s : Registry) (oo : FenceOptions) (e : CreateFailure),
        (fenceFlowEffect fext host s oo).1 = .error e →
        (fenceFlowEffect fext host s oo).2 = s) ∧
    (∀ (host : Bool) (s : Registry) (oo : FenceOptions2) (e : CreateFailure),
        (fenceFlowEffect2 fext2 host s oo).1 = .error e →
        (fenceFlowEffect2 fext2 host s oo).2 = s) := by
  refine ⟨?_, ?_, ?_, ?_⟩
  · have hl : ¬o.positions.length < 2 := not_lt.mpr hn
    simp [fenceFlowEffect, hfresh, hl, hfail]
  · have hl : ¬o2.positions.length < 2 := not_lt.mpr hn2
    simp [fenceFlowEffect2, hfresh2, hl, hfail2]
  · intro host s oo e h
    exact fenceFlowEffect_error_unchanged fext host s oo e h
  · intro host s oo e h
    exact fenceFlowEffect2_error_unchanged fext2 host s oo e h

/-- Witness for C6: a collaborator whose `WallGeometry` constructor throws
(variant 1) and one whose `Primitive` constructor throws (variant 2), on
an empty registry — both calls fail and return the registry unchanged. -/
theorem fenceCreate_atomic_witness :
    fenceConstruct geomFailFenceExt fenceDemoOptions = none ∧
    fenceFlowEffect geomFailFenceExt true [] fenceDemoOptions =
      (.error .constructionFailed, []) ∧
    fenceFlowEffect2 primFailFenceExt2 true [] fence2DemoOptions =
      (.error .constructionFailed, []) := by
  have h := fenceCreate_atomic geomFailFenceExt primFailFenceExt2 []
    fenceDemoOptions fence2DemoOptions rfl rfl
    (by simp [fenceDemoOptions]) (by simp [fence2DemoOptions])
    (by simp [fenceConstruct, geomFailFenceExt])
    (by simp [fence2Construct, primFailFenceExt2])
  exact ⟨by simp [fenceConstruct, geomFailFenceExt], h.1, h.2.1⟩

/-- Claim C7: for wall creation (host available, fresh id), a spec with a
single vertex is rejected with the invalid-spec failure and nothing is
stored, while a spec with two vertices succeeds (given the rendering
collaborators succeed): the call returns the built wall primitive and
stores it under the requested id. -/
theorem fenceWall_vertexCount (fext : FenceExt) (r : Registry)
    (o₁ o₂ : FenceOptions) (p : WallPrimitive)
    (hfresh₁ : getGraphicMap r o₁.id = none) (h1 : o₁.positions.length = 1)
    (hfresh₂ : getGraphicMap r o₂.id = none) (h2 : o₂.positions.length = 2)
    (hok : fenceConstruct fext o₂ = some p) :
    fenceFlowEffect fext true r o₁ = (.error .invalidSpec, r) ∧
    (fenceFlowEffect fext true r o₂).1 = .ok p ∧
    getGraphicMap (fenceFlowEffect fext true r o₂).2 o₂.id = some (.wall p) := by
  refine ⟨?_, ?_, ?_⟩
  · simp [fenceFlowEffect, hfresh₁, h1]
  · simp [fenceFlowEffect, hfresh₂, h2, hok]
  · simp [fenceFlowEffect, hfresh₂, h2, hok, getGraphicMap_set_self]

/-- Witness for C7: one- and two-vertex inputs on an empty registry with
an all-succeeding collaborator. -/
theorem fenceWall_vertexCount_witness :
    fence1VertexOptions.positions.length = 1 ∧
    fenceDemoOptions.positions.length = 2 ∧
    fenceFlowEffect allOkFenceExt true [] fence1VertexOptions = (.error .invalidSpec, []) ∧
    (fenceFlowEffect allOkFenceExt true [] fenceDemoOptions).1 =
      .ok (fenceWallPrimitive fenceDemoOptions) := by
  have h := fenceWall_vertexCount allOkFenceExt [] fence1VertexOptions fenceDemoOptions
    (fenceWallPrimitive fenceDemoOptions) rfl (by simp [fence1VertexOptions]) rfl
    (by simp [fenceDemoOptions]) (by simp [fenceConstruct, allOkFenceExt])
  exact ⟨by simp [fence1VertexOptions], by simp [fenceDemoOptions], h.1, h.2.1⟩

/-- Claim C8 counterexample: `conicalWave` performs no axial-length
validation.  With `length = 0` (host available, empty registry) the call
is not rejected: it returns the built entity and stores it under the
requested id, contradicting the claim that the input is rejected with a
failure value and nothing stored. -/
theorem conicalWave_zeroLength_not_rejected :
    cwZeroLenOptions.length = 0 ∧
    (conicalWave idCesiumExt true [] cwZeroLenOptions).1 =
      .ok (conicalWaveEntity idCesiumExt cwZeroLenOptions) ∧
    getGraphicMap (conicalWave idCesiumExt true [] cwZeroLenOptions).2 cwZeroLenOptions.id =
      some (.entity (conicalWaveEntity idCesiumExt cwZeroLenOptions)) := by
  refine ⟨rfl, ?_, ?_⟩
  · simp [conicalWave, getGraphicMap]
  · simp [conicalWave, getGraphicMap, getGraphicMap_set_self]

/-- Claim C8 (amended): a cone creation input with `axialLength = 0` is
not rejected: for every collaborator, host available and fresh id,
`conicalWave` succeeds, stores the entity, and produces the degenerate
pose whose centroid coincides with the anchor vertex (the offset is
zero). -/
theorem conicalWave_zeroLength_creates (ext : CesiumExt) (r : Registry)
    (o : ConicalWaveOptions) (hfresh : getGraphicMap r o.id = none) (hlen : o.length = 0) :
    (conicalWave ext true r o).1 = .ok (conicalWaveEntity ext o) ∧
    getGraphicMap (conicalWave ext true r o).2 o.id =
      some (.entity (conicalWaveEntity ext o)) ∧
    conicalWaveCenter ext o = conicalWaveVertexPosition ext o := by
  refine ⟨?_, ?_, ?_⟩
  · simp [conicalWave, hfresh]
  · simp [conicalWave, hfresh, getGraphicMap_set_self]
  · unfold conicalWaveCenter
    rw [hlen, show (0 : ℚ) / 2 = 0 by norm_num]
    exact Vec3.sub_smul_zero _ _

/-- Witness for C8 (amended) at the zero-length demonstration input. -/
theorem conicalWave_zeroLength_creates_witness :
    getGraphicMap ([] : Registry) cwZeroLenOptions.id = none ∧
    cwZeroLenOptions.length = 0 ∧
    (conicalWave idCesiumExt true [] cwZeroLenOptions).1 =
      .ok (conicalWaveEntity idCesiumExt cwZeroLenOptions) ∧
    conicalWaveCenter idCesiumExt cwZeroLenOptions =
      conicalWaveVertexPosition idCesiumExt cwZeroLenOptions := by
  have h := conicalWave_zeroLength_creates idCesiumExt [] cwZeroLenOptions rfl rfl
  exact ⟨rfl, rfl, h.1, h.2.2⟩

/-- Claim C9: both `createRadarCone` variants compute the apex position
from `(longitude, latitude, 0)`, discarding the anchor's height, while
`conicalWave` uses the supplied height; consequently, whenever the
geodetic conversion distinguishes height 0 from the anchor's height
(nonzero height), the radar vertex differs from the anchor's true
Cartesian position — the cone is pinned to the ellipsoid surface. -/
theorem radarCone_discards_height (ext : CesiumExt) (o : RadarOptions)
    (oc : ConicalWaveOptions)
    (hdist : ext.fromDegrees (o.position.getD 0 0) (o.position.getD 1 0) 0 ≠
      ext.fromDegrees (o.position.getD 0 0) (o.position.getD 1 0) (o.position.getD 2 0)) :
    radarCone1VertexPosition ext o =
      ext.fromDegrees (o.position.getD 0 0) (o.position.getD 1 0) 0 ∧
    radarCone2VertexPosition ext o =
      ext.fromDegrees (o.position.getD 0 0) (o.position.getD 1 0) 0 ∧
    conicalWaveVertexPosition ext oc =
      ext.fromDegrees (oc.positions.getD 0 0) (oc.positions.getD 1 0)
        (oc.positions.getD 2 0) ∧
    radarCone1VertexPosition ext o ≠
      ext.fromDegrees (o.position.getD 0 0) (o.position.getD 1 0) (o.position.getD 2 0) ∧
    radarCone2VertexPosition ext o ≠
      ext.fromDegrees (o.position.getD 0 0) (o.position.getD 1 0) (o.position.getD 2 0) := by
  exact ⟨rfl, rfl, rfl, hdist, hdist⟩

/-- Witness for C9 at an anchor with height 5 m (injective conversion
model): the radar vertex sits at height 0 and differs from the anchor. -/
theorem radarCone_discards_height_witness :
    radarHeightOptions.position.getD 2 0 = 5 ∧
    radarCone1VertexPosition idCesiumExt radarHeightOptions ≠
      idCesiumExt.fromDegrees (radarHeightOptions.position.getD 0 0)
        (radarHeightOptions.position.getD 1 0) (radarHeightOptions.position.getD 2 0) := by
  have h := radarCone_discards_height idCesiumExt radarHeightOptions cwDemoOptions
    (by norm_num [idCesiumExt, radarHeightOptions, Vec3.mk.injEq])
  exact ⟨rfl, h.2.2.2.1⟩

/-- Claim C10: `fenceFlowEffect` replaces falsy option values with
defaults via `||`: an explicit `maxHeight = 0` yields a wall of height 100
(`maximumHeights` all 100, creation succeeds — never rejected or
degenerate), an explicit `speed = 0` yields material speed 1, and a vertex
with missing or zero third coordinate gets height 0. -/
theorem fence_falsy_defaults (fext : FenceExt) (r : Registry) (o : FenceOptions)
    (pos : List ℚ)
    (hmh : o.maxHeight = some 0) (hsp : o.speed = some 0)
    (hfresh : getGraphicMap r o.id = none) (hlen : 2 ≤ o.positions.length)
    (hok : fenceConstruct fext o = some (fenceWallPrimitive o))
    (hz : pos.get? 2 = none ∨ pos.get? 2 = some 0) :
    fenceMaxHeight o = 100 ∧
    fenceSpeed o = 1 ∧
    (fenceGeometryArgs o).maximumHeights = List.replicate o.positions.length 100 ∧
    (fenceMaterialArgs o).speed = 1 ∧
    fenceVertexCoord pos = [pos.getD 0 0, pos.getD 1 0, 0] ∧
    (fenceFlowEffect fext true r o).1 = .ok (fenceWallPrimitive o) := by
  have hmax : fenceMaxHeight o = 100 := by simp [fenceMaxHeight, jsOrQ, hmh]
  have hspd : fenceSpeed o = 1 := by simp [fenceSpeed, jsOrQ, hsp]
  refine ⟨hmax, hspd, ?_, ?_, ?_, ?_⟩
  · simp [fenceGeometryArgs, fenceCoordinates, hmax]
  · simp [fenceMaterialArgs, hspd]
  · rw [List.get?_eq_getElem?] at hz
    rcases hz with h | h <;> simp [fenceVertexCoord, jsOrQ, h]
  · have hl : ¬o.positions.length < 2 := not_lt.mpr hlen
    simp [fenceFlowEffect, hfresh, hl, hok]

/-- Witness for C10 at the falsy demonstration input
(`maxHeight = some 0`, `speed = some 0`, first vertex `[114, 35]`). -/
theorem fence_falsy_defaults_witness :
    fenceFalsyOptions.maxHeight = some 0 ∧
    fenceFalsyOptions.speed = some 0 ∧
    fenceMaxHeight fenceFalsyOptions = 100 ∧
    fenceSpeed fenceFalsyOptions = 1 ∧
    fenceVertexCoord [114, 35] = [114, 35, 0] ∧
    (fenceFlowEffect allOkFenceExt true [] fenceFalsyOptions).1 =
      .ok (fenceWallPrimitive fenceFalsyOptions) := by
  have h := fence_falsy_defaults allOkFenceExt [] fenceFalsyOptions [114, 35]
    rfl rfl rfl (by simp [fenceFalsyOptions])
    (by simp [fenceConstruct, allOkFenceExt]) (Or.inl rfl)
  exact ⟨rfl, rfl, h.1, h.2.1, h.2.2.2.2.1, h.2.2.2.2.2⟩

end CesiumMap
